import Mathlib

/-!
Shallow embedding of the session-creation and status-reporting core of
`src/app.py` (a Flask backend).  The handlers are modelled as pure
functions over an explicit application state; request-level effects
(the two uuid draws and the successive `datetime.now().isoformat()`
reads) are inputs, and the outcome of `request.get_json()` is an input
describing what the framework's parser produced.
-/

set_option autoImplicit false

namespace Backend

/-- JSON values as Python's `json` module produces them: `None`, booleans,
numbers, strings, lists and dicts. -/
inductive Json where
  | null
  | bool (b : Bool)
  | num (n : Int)
  | str (s : String)
  | arr (elems : List Json)
  | obj (fields : List (String × Json))

/-- Python truthiness (`bool(x)`) of a parsed JSON value, as used by the
`if not data` test on line 158 of `src/app.py`. -/
def Json.truthy : Json → Bool
  | .null => false
  | .bool b => b
  | .num n => n != 0
  | .str s => s != ""
  | .arr elems => !elems.isEmpty
  | .obj fields => !fields.isEmpty

/-- Lookup of a key in a JSON object's field list (Python `k in d` / `d[k]`;
a dict holds each key once, so first match suffices). -/
def dictFind : List (String × Json) → String → Option Json
  | [], _ => none
  | (k2, v) :: rest, k => if k = k2 then some v else dictFind rest k

/-- Python `d.get(k, default)`. -/
def dictGet (fields : List (String × Json)) (k : String) (d : Json) : Json :=
  (dictFind fields k).getD d

/-- Python's type name of a JSON value, as it appears in runtime error text. -/
def pyTypeName : Json → String
  | .null => "NoneType"
  | .bool _ => "bool"
  | .num _ => "int"
  | .str _ => "str"
  | .arr _ => "list"
  | .obj _ => "dict"

/-- str(e) of the AttributeError Python raises when `.get` is used on a
non-dict value (quotes of the real message omitted). -/
def attrErrMsg (v : Json) : String :=
  pyTypeName v ++ " object has no attribute get"

/-- One session record, the dict built on lines 169-177 of `src/app.py`.
The three client-controlled fields hold whatever JSON value `data.get`
returned. -/
structure SessionRecord where
  id : String
  user_id : Json
  device_type : Json
  app_version : Json
  created_at : String
  last_activity : String
  interaction_count : Nat

/-- The `active_sessions` dict: association list keyed by session id. -/
abbrev Registry := List (String × SessionRecord)

/-- Dict lookup `active_sessions[k]` / `k in active_sessions`. -/
def lookupKey (k : String) : Registry → Option SessionRecord
  | [] => none
  | (k2, v) :: rest => if k = k2 then some v else lookupKey k rest

/-- Remove every binding of key `k` (helper for dict assignment). -/
def eraseKey (k : String) : Registry → Registry
  | [] => []
  | (k2, v) :: rest => if k2 = k then eraseKey k rest else (k2, v) :: eraseKey k rest

/-- Python dict assignment `active_sessions[session_id] = session_data`
(line 180): the key ends up bound exactly once. -/
def insertKey (k : String) (v : SessionRecord) (st : Registry) : Registry :=
  (k, v) :: eraseKey k st

/-- What `request.get_json()` produced: either it raised (malformed body,
`excMsg` being `str(e)` of the raised exception) or it returned a JSON
value (`None` for a missing/JSON-null body). -/
inductive BodyParse where
  | failure (excMsg : String)
  | success (data : Json)

/-- Per-request effect inputs: `str(uuid.uuid4())` of line 166,
`uuid.uuid4().hex` of line 161, and the stream of
`datetime.now().isoformat()` readings (call `i` reads `clock i`). -/
structure RequestEnv where
  sessionUuid : String
  userUuidHex : List Char
  clock : Nat → String

/-- An HTTP response: the jsonified body and the status code. -/
structure HttpResponse where
  body : List (String × Json)
  code : Nat

/-- Field of a response body. -/
def respField (r : HttpResponse) (k : String) : Option Json :=
  dictFind r.body k

/-- Field of the `services` sub-object of a response body. -/
def serviceField (r : HttpResponse) (k : String) : Option Json :=
  match respField r "services" with
  | some (Json.obj fields) => dictFind fields k
  | _ => none

/-- Field of the `config` sub-object of a response body. -/
def configField (r : HttpResponse) (k : String) : Option Json :=
  match respField r "config" with
  | some (Json.obj fields) => dictFind fields k
  | _ => none

/-- `crear_sesion` (lines 151-196 of `src/app.py`): the whole handler body
runs inside `try`, and `except Exception as e` returns a 500 response
whose `message` is `str(e)`.  The three places an exception can arise are
the parse itself (modelled by `BodyParse.failure`) and the `.get` calls on
a truthy non-dict value (AttributeError). -/
def crear_sesion (body : BodyParse) (env : RequestEnv) (st : Registry) :
    HttpResponse × Registry :=
  match body with
  | .failure excMsg =>
      ({ body := [("error", .str "Error interno del servidor"),
                  ("message", .str excMsg)], code := 500 }, st)
  | .success data =>
      if data.truthy then
        match data with
        | .obj fields =>
            let user_id := dictGet fields "user_id"
              (.str ("user_" ++ String.mk (env.userUuidHex.take 8)))
            let device_type := dictGet fields "device_type" (.str "unknown")
            let app_version := dictGet fields "app_version" (.str "1.0.0")
            let session_id := env.sessionUuid
            let session_data : SessionRecord :=
              { id := session_id
                user_id := user_id
                device_type := device_type
                app_version := app_version
                created_at := env.clock 0
                last_activity := env.clock 1
                interaction_count := 0 }
            ({ body := [("session_id", .str session_id),
                        ("status", .str "created"),
                        ("message", .str "Sesión creada exitosamente"),
                        ("timestamp", .str (env.clock 2))], code := 201 },
             insertKey session_id session_data st)
        | _ =>
            ({ body := [("error", .str "Error interno del servidor"),
                        ("message", .str (attrErrMsg data))], code := 500 }, st)
      else
        ({ body := [("error", .str "Datos requeridos")], code := 400 }, st)

/-- The configuration values `status` reads through `app.config.get`;
`none` models an absent key.  `SESSION_LIFETIME` carries the timedelta's
total seconds. -/
structure AppConfig where
  OPENAI_API_KEY : Option String
  OPENAI_MODEL : Option String
  MAX_CONTENT_LENGTH : Option Nat
  SESSION_LIFETIME : Option Nat
  RATE_LIMIT_PER_MINUTE : Option Int

/-- `bool(app.config.get('OPENAI_API_KEY'))` of line 58: `None` and the
empty string are falsy, any other string truthy. -/
def openaiConfigured (cfg : AppConfig) : Bool :=
  match cfg.OPENAI_API_KEY with
  | none => false
  | some s => s != ""

/-- The `pending_validations` dict; only its length is observable here. -/
abbrev Validations := List (String × Json)

/-- `status` (lines 49-85 of `src/app.py`). -/
def status (cfg : AppConfig) (envName : String) (clock : Nat → String)
    (sessions : Registry) (validations : Validations) : HttpResponse :=
  { body := [
      ("status", .str "healthy"),
      ("timestamp", .str (clock 0)),
      ("environment", .str envName),
      ("services", .obj [
        ("openai", .str (if openaiConfigured cfg then "configured" else "not_configured")),
        ("openai_model", .str (cfg.OPENAI_MODEL.getD "not_set")),
        ("sessions", .str (toString sessions.length ++ " active")),
        ("validations", .str (toString validations.length ++ " pending"))]),
      ("config", .obj [
        ("max_content_length_mb", .num (((cfg.MAX_CONTENT_LENGTH.getD 0) / (1024 * 1024) : Nat))),
        ("session_lifetime_hours", .num (((cfg.SESSION_LIFETIME.getD (8 * 3600)) / 3600 : Nat))),
        ("rate_limit_per_minute", .num (cfg.RATE_LIMIT_PER_MINUTE.getD 10))]),
      ("version", .str "1.0.0")],
    code := 200 }

/-- `ping` (lines 36-47). -/
def ping (clock : Nat → String) : HttpResponse :=
  { body := [("status", .str "ok"),
             ("message", .str "Server is running"),
             ("timestamp", .str (clock 0))], code := 200 }

/-- The registered 400 handler `bad_request` (lines 87-98). -/
def bad_request (clock : Nat → String) : HttpResponse :=
  { body := [("error", .str "Bad Request"),
             ("message", .str "The request data is malformed or invalid"),
             ("timestamp", .str (clock 0))], code := 400 }

/-- The registered 404 handler `not_found` (lines 100-110). -/
def not_found (clock : Nat → String) : HttpResponse :=
  { body := [("error", .str "Not Found"),
             ("message", .str "The requested endpoint does not exist"),
             ("timestamp", .str (clock 0))], code := 404 }

/-- The registered 500 handler `internal_error` (lines 112-123). -/
def internal_error (clock : Nat → String) : HttpResponse :=
  { body := [("error", .str "Internal Server Error"),
             ("message", .str "An unexpected error occurred. Please try again later."),
             ("timestamp", .str (clock 0))], code := 500 }

/-- The process-wide mutable state: the two module-level dicts of
lines 31 and 34. -/
structure AppState where
  active_sessions : Registry
  pending_validations : Validations

/-- An inbound request dispatched to one of the core's handlers. -/
inductive Request where
  | pingReq
  | statusReq
  | createSession (body : BodyParse)
  | unknownPath

/-- One request-response cycle of the application core. -/
def handle (req : Request) (cfg : AppConfig) (envName : String)
    (env : RequestEnv) (st : AppState) : HttpResponse × AppState :=
  match req with
  | .pingReq => (ping env.clock, st)
  | .statusReq =>
      (status cfg envName env.clock st.active_sessions st.pending_validations, st)
  | .createSession body =>
      let out := crear_sesion body env st.active_sessions
      (out.1, { st with active_sessions := out.2 })
  | .unknownPath => (not_found env.clock, st)

/-- States reachable from the empty registries by any sequence of
requests. -/
inductive Reachable : AppState → Prop where
  | init : Reachable { active_sessions := [], pending_validations := [] }
  | step (req : Request) (cfg : AppConfig) (envName : String) (env : RequestEnv)
      {st : AppState} : Reachable st → Reachable (handle req cfg envName env st).2

/-! ### Registry lemmas -/

theorem lookupKey_eraseKey_self (k : String) (st : Registry) :
    lookupKey k (eraseKey k st) = none := by
  induction st with
  | nil => rfl
  | cons p rest ih =>
      obtain ⟨k2, v⟩ := p
      by_cases h : k2 = k
      · simpa [eraseKey, h] using ih
      · have h2 : ¬ k = k2 := fun e => h e.symm
        simpa [eraseKey, h, lookupKey, h2] using ih

theorem lookupKey_eraseKey_ne (k k2 : String) (st : Registry) (h : k ≠ k2) :
    lookupKey k (eraseKey k2 st) = lookupKey k st := by
  induction st with
  | nil => rfl
  | cons p rest ih =>
      obtain ⟨k3, v⟩ := p
      by_cases h3 : k3 = k2
      · subst h3
        simpa [eraseKey, lookupKey, h] using ih
      · by_cases hk : k = k3 <;> simp [eraseKey, lookupKey, h3, hk, ih]

theorem lookupKey_insertKey_self (k : String) (v : SessionRecord) (st : Registry) :
    lookupKey k (insertKey k v st) = some v := by
  simp [insertKey, lookupKey]

theorem lookupKey_insertKey_ne (k k2 : String) (v : SessionRecord) (st : Registry)
    (h : k ≠ k2) : lookupKey k (insertKey k2 v st) = lookupKey k st := by
  simp [insertKey, lookupKey, h, lookupKey_eraseKey_ne k k2 st h]

theorem eraseKey_of_lookupKey_none (k : String) (st : Registry)
    (h : lookupKey k st = none) : eraseKey k st = st := by
  induction st with
  | nil => rfl
  | cons p rest ih =>
      obtain ⟨k2, v⟩ := p
      by_cases hk : k = k2
      · simp [lookupKey, hk] at h
      · have h2 : ¬ k2 = k := fun e => hk e.symm
        simp only [lookupKey, if_neg hk] at h
        simp [eraseKey, h2, ih h]

theorem length_insertKey_of_none (k : String) (v : SessionRecord) (st : Registry)
    (h : lookupKey k st = none) : (insertKey k v st).length = st.length + 1 := by
  simp [insertKey, eraseKey_of_lookupKey_none k st h]

theorem eraseKey_sublist (k : String) (st : Registry) :
    List.Sublist (eraseKey k st) st := by
  induction st with
  | nil => simp [eraseKey]
  | cons p rest ih =>
      obtain ⟨k2, v⟩ := p
      by_cases h : k2 = k
      · simp only [eraseKey, if_pos h]
        exact ih.cons _
      · simp only [eraseKey, if_neg h]
        exact ih.cons₂ _

theorem mem_of_mem_eraseKey (k : String) (st : Registry) (p : String × SessionRecord)
    (h : p ∈ eraseKey k st) : p ∈ st :=
  (eraseKey_sublist k st).mem h

theorem keys_eraseKey_not_mem (k : String) (st : Registry) :
    k ∉ (eraseKey k st).map Prod.fst := by
  induction st with
  | nil => simp [eraseKey]
  | cons p rest ih =>
      obtain ⟨k2, v⟩ := p
      by_cases h : k2 = k
      · simpa [eraseKey, h] using ih
      · have h2 : ¬ k = k2 := fun e => h e.symm
        simpa [eraseKey, h, h2] using ih

theorem lookupKey_mem (k : String) (r : SessionRecord) (st : Registry)
    (h : lookupKey k st = some r) : (k, r) ∈ st := by
  induction st with
  | nil => simp [lookupKey] at h
  | cons p rest ih =>
      obtain ⟨k2, v⟩ := p
      simp only [lookupKey] at h
      split at h
      · rename_i hcond
        injection h with hvr
        subst hvr
        subst hcond
        exact List.mem_cons_self _ _
      · exact List.mem_cons_of_mem _ (ih h)

/-- The registry invariant: the keys are distinct, and every stored
record's `id` field is the key it is stored under. -/
def RegistryInv (st : Registry) : Prop :=
  (st.map Prod.fst).Nodup ∧ ∀ p ∈ st, (Prod.snd p).id = p.1

theorem registryInv_insertKey (k : String) (v : SessionRecord) (st : Registry)
    (hinv : RegistryInv st) (hid : v.id = k) : RegistryInv (insertKey k v st) := by
  obtain ⟨hnd, hids⟩ := hinv
  constructor
  · simp only [insertKey, List.map_cons, List.nodup_cons]
    exact ⟨keys_eraseKey_not_mem k st,
      ((eraseKey_sublist k st).map Prod.fst).nodup hnd⟩
  · intro p hp
    rcases List.mem_cons.mp hp with h | h
    · subst h; exact hid
    · exact hids p (mem_of_mem_eraseKey k st p h)

/-! ### Behavior of `crear_sesion` on each kind of parse outcome -/

theorem crear_sesion_failure (m : String) (env : RequestEnv) (st : Registry) :
    crear_sesion (.failure m) env st =
      ({ body := [("error", .str "Error interno del servidor"),
                  ("message", .str m)], code := 500 }, st) := rfl

theorem crear_sesion_falsy (v : Json) (env : RequestEnv) (st : Registry)
    (h : v.truthy = false) :
    crear_sesion (.success v) env st =
      ({ body := [("error", .str "Datos requeridos")], code := 400 }, st) := by
  simp [crear_sesion, h]

theorem crear_sesion_nonobj (v : Json) (env : RequestEnv) (st : Registry)
    (ht : v.truthy = true) (hno : ∀ fields, v ≠ .obj fields) :
    crear_sesion (.success v) env st =
      ({ body := [("error", .str "Error interno del servidor"),
                  ("message", .str (attrErrMsg v))], code := 500 }, st) := by
  cases v with
  | obj fields => exact absurd rfl (hno fields)
  | null => simp [Json.truthy] at ht
  | bool b =>
      cases b
      · simp [Json.truthy] at ht
      · rfl
  | num n => simp [crear_sesion, Json.truthy] at ht ⊢; simp [ht]
  | str s => simp [crear_sesion, Json.truthy] at ht ⊢; simp [ht]
  | arr elems => simp [crear_sesion, Json.truthy] at ht ⊢; simp [ht]

theorem crear_sesion_obj (fields : List (String × Json)) (env : RequestEnv)
    (st : Registry) (hne : fields ≠ []) :
    crear_sesion (.success (.obj fields)) env st =
      ({ body := [("session_id", .str env.sessionUuid),
                  ("status", .str "created"),
                  ("message", .str "Sesión creada exitosamente"),
                  ("timestamp", .str (env.clock 2))], code := 201 },
       insertKey env.sessionUuid
         { id := env.sessionUuid
           user_id := dictGet fields "user_id"
             (.str ("user_" ++ String.mk (env.userUuidHex.take 8)))
           device_type := dictGet fields "device_type" (.str "unknown")
           app_version := dictGet fields "app_version" (.str "1.0.0")
           created_at := env.clock 0
           last_activity := env.clock 1
           interaction_count := 0 } st) := by
  obtain ⟨p, rest, rfl⟩ : ∃ p rest, fields = p :: rest := by
    cases fields with
    | nil => exact absurd rfl hne
    | cons p rest => exact ⟨p, rest, rfl⟩
  rfl

/-! ### Invariant preservation -/

theorem registryInv_crear_sesion (body : BodyParse) (env : RequestEnv)
    (st : Registry) (hinv : RegistryInv st) :
    RegistryInv (crear_sesion body env st).2 := by
  match body with
  | .failure m => exact hinv
  | .success v =>
      cases htv : v.truthy with
      | false =>
          rw [crear_sesion_falsy v env st htv]
          exact hinv
      | true =>
          by_cases hobj : ∃ fields, v = .obj fields
          · obtain ⟨fields, rfl⟩ := hobj
            have hne : fields ≠ [] := by
              intro h
              subst h
              simp [Json.truthy] at htv
            rw [crear_sesion_obj fields env st hne]
            exact registryInv_insertKey _ _ _ hinv rfl
          · have hno : ∀ fields, v ≠ .obj fields := fun fields hh => hobj ⟨fields, hh⟩
            rw [crear_sesion_nonobj v env st htv hno]
            exact hinv

theorem registryInv_handle (req : Request) (cfg : AppConfig) (envName : String)
    (env : RequestEnv) (st : AppState) (hinv : RegistryInv st.active_sessions) :
    RegistryInv (handle req cfg envName env st).2.active_sessions := by
  cases req with
  | pingReq => exact hinv
  | statusReq => exact hinv
  | unknownPath => exact hinv
  | createSession body => exact registryInv_crear_sesion body env st.active_sessions hinv

theorem registryInv_reachable (st : AppState) (h : Reachable st) :
    RegistryInv st.active_sessions := by
  induction h with
  | init => exact ⟨List.nodup_nil, fun p hp => absurd hp (List.not_mem_nil p)⟩
  | step req cfg envName env h ih => exact registryInv_handle req cfg envName env _ ih

theorem crear_sesion_preserves_id (body : BodyParse) (env : RequestEnv)
    (st : Registry) (k : String) (r : SessionRecord)
    (hid : r.id = k) (h : lookupKey k st = some r) :
    ∃ r2, lookupKey k (crear_sesion body env st).2 = some r2 ∧ r2.id = r.id := by
  match body with
  | .failure m => exact ⟨r, h, rfl⟩
  | .success v =>
      cases htv : v.truthy with
      | false =>
          rw [crear_sesion_falsy v env st htv]
          exact ⟨r, h, rfl⟩
      | true =>
          by_cases hobj : ∃ fields, v = .obj fields
          · obtain ⟨fields, rfl⟩ := hobj
            have hne : fields ≠ [] := by
              intro hh
              subst hh
              simp [Json.truthy] at htv
            rw [crear_sesion_obj fields env st hne]
            by_cases hk : k = env.sessionUuid
            · subst hk
              exact ⟨_, lookupKey_insertKey_self _ _ _, hid.symm⟩
            · rw [lookupKey_insertKey_ne k _ _ _ hk]
              exact ⟨r, h, rfl⟩
          · have hno : ∀ fields, v ≠ .obj fields := fun fields hh => hobj ⟨fields, hh⟩
            rw [crear_sesion_nonobj v env st htv hno]
            exact ⟨r, h, rfl⟩

theorem map_id_eq_keys (st : Registry) (h : ∀ p ∈ st, (Prod.snd p).id = p.1) :
    st.map (fun p => (Prod.snd p).id) = st.map Prod.fst := by
  induction st with
  | nil => rfl
  | cons p rest ih =>
      simp only [List.map_cons, List.cons.injEq]
      exact ⟨h p (List.mem_cons_self p rest),
        ih fun q hq => h q (List.mem_cons_of_mem p hq)⟩

/-! ### Concrete inputs used to evaluate the handlers -/

/-- Lowercase hexadecimal digit, the alphabet of `uuid4().hex`. -/
def isHexChar (c : Char) : Bool := c.isDigit || ('a' ≤ c && c ≤ 'f')

/-- Concrete per-request effects: a fixed uuid pair and a clock that
ticks between successive reads. -/
def env0 : RequestEnv :=
  { sessionUuid := "11111111-2222-3333-4444-555555555555"
    userUuidHex := "0123456789abcdef0123456789abcdef".data
    clock := fun i => if i = 0 then "t0" else if i = 1 then "t1" else "t2" }

/-- A configuration with every key absent. -/
def cfg0 : AppConfig :=
  { OPENAI_API_KEY := none, OPENAI_MODEL := none, MAX_CONTENT_LENGTH := none
    SESSION_LIFETIME := none, RATE_LIMIT_PER_MINUTE := none }

/-! ### The claims -/

/-- C1: for a request whose payload parses to a non-empty JSON object
(the fresh uuid hypothesis is what `uuid4` guarantees up to negligible
collision), `crear_sesion` answers 201 with the new session identifier, a
`created` status marker and a timestamp; the identifier is in the
registry upon return and the registry size increases by exactly 1. -/
theorem create_session_success (fields : List (String × Json)) (env : RequestEnv)
    (st : Registry) (hne : fields ≠ [])
    (hfresh : lookupKey env.sessionUuid st = none) :
    (crear_sesion (.success (.obj fields)) env st).1.code = 201 ∧
    respField (crear_sesion (.success (.obj fields)) env st).1 "session_id"
      = some (.str env.sessionUuid) ∧
    respField (crear_sesion (.success (.obj fields)) env st).1 "status"
      = some (.str "created") ∧
    respField (crear_sesion (.success (.obj fields)) env st).1 "timestamp"
      = some (.str (env.clock 2)) ∧
    (∃ r, lookupKey env.sessionUuid (crear_sesion (.success (.obj fields)) env st).2
      = some r) ∧
    (crear_sesion (.success (.obj fields)) env st).2.length = st.length + 1 := by
  rw [crear_sesion_obj fields env st hne]
  exact ⟨rfl, rfl, rfl, rfl, ⟨_, lookupKey_insertKey_self _ _ _⟩,
    length_insertKey_of_none _ _ _ hfresh⟩

/-- C1 witness: the theorem evaluated on a concrete request against the
empty registry. -/
theorem create_session_success_witness :
    (crear_sesion (.success (.obj [("user_id", Json.str "u1")])) env0 []).1.code = 201 ∧
    (crear_sesion (.success (.obj [("user_id", Json.str "u1")])) env0 []).2.length
      = List.length ([] : Registry) + 1 :=
  ⟨(create_session_success [("user_id", Json.str "u1")] env0 [] (by simp) rfl).1,
   (create_session_success [("user_id", Json.str "u1")] env0 [] (by simp) rfl).2.2.2.2.2⟩

/-- C2 (code bug): the `except` branch of `crear_sesion` (lines 191-196)
returns `str(e)` as the 500 body's `message`, so internal exception
detail IS included in the response body: every parse-exception text is
echoed verbatim, and on the failing input `5` the AttributeError text
appears in the body. -/
theorem create_session_leaks_exception_detail :
    (∀ m env st, respField (crear_sesion (.failure m) env st).1 "message"
      = some (.str m)) ∧
    (crear_sesion (.success (.num 5)) env0 []).1.code = 500 ∧
    respField (crear_sesion (.success (.num 5)) env0 []).1 "message"
      = some (.str "int object has no attribute get") :=
  ⟨fun _ _ _ => rfl, rfl, rfl⟩

/-- C4 (code bug): a malformed body makes `request.get_json()` raise; the
catch-all `except` then answers 500 — not the 400/ValidationError the
spec states — leaving the registry unchanged. -/
theorem create_session_malformed_body_500 (m : String) (env : RequestEnv)
    (st : Registry) :
    (crear_sesion (.failure m) env st).1.code = 500 ∧
    (crear_sesion (.failure m) env st).1.code ≠ 400 ∧
    respField (crear_sesion (.failure m) env st).1 "error"
      = some (.str "Error interno del servidor") ∧
    (crear_sesion (.failure m) env st).2 = st := by
  rw [crear_sesion_failure]
  exact ⟨rfl, show (500 : Nat) ≠ 400 by decide, rfl, rfl⟩

/-- C5: an empty or missing payload (anything `request.get_json()` maps
to a falsy value: `None`, `{}`, and the other Python-falsy values)
yields the inline 400 response and leaves the registry unchanged. -/
theorem create_session_empty_payload (v : Json) (env : RequestEnv) (st : Registry)
    (hfalsy : v.truthy = false) :
    (crear_sesion (.success v) env st).1.code = 400 ∧
    respField (crear_sesion (.success v) env st).1 "error"
      = some (.str "Datos requeridos") ∧
    (crear_sesion (.success v) env st).2 = st := by
  rw [crear_sesion_falsy v env st hfalsy]
  exact ⟨rfl, rfl, rfl⟩

/-- C5 witness: a missing body (parse result `None`) against the empty
registry. -/
theorem create_session_empty_payload_witness :
    (crear_sesion (.success .null) env0 []).1.code = 400 ∧
    respField (crear_sesion (.success .null) env0 []).1 "error"
      = some (.str "Datos requeridos") ∧
    (crear_sesion (.success .null) env0 []).2 = [] :=
  create_session_empty_payload .null env0 [] rfl

/-- C10: a truthy non-object payload (non-empty array, non-zero number,
non-empty string, `true`) makes the `.get` call raise AttributeError,
so the handler answers 500 (not 400) and the registry is unchanged. -/
theorem create_session_truthy_nonobject (v : Json) (env : RequestEnv) (st : Registry)
    (ht : v.truthy = true) (hno : ∀ fields, v ≠ .obj fields) :
    (crear_sesion (.success v) env st).1.code = 500 ∧
    (crear_sesion (.success v) env st).1.code ≠ 400 ∧
    respField (crear_sesion (.success v) env st).1 "error"
      = some (.str "Error interno del servidor") ∧
    (crear_sesion (.success v) env st).2 = st := by
  rw [crear_sesion_nonobj v env st ht hno]
  exact ⟨rfl, show (500 : Nat) ≠ 400 by decide, rfl, rfl⟩

/-- C10 witness: the payload `5`. -/
theorem create_session_truthy_nonobject_witness :
    (crear_sesion (.success (.num 5)) env0 []).1.code = 500 ∧
    (crear_sesion (.success (.num 5)) env0 []).2 = [] :=
  ⟨(create_session_truthy_nonobject (.num 5) env0 [] (by decide)
      (fun _ h => Json.noConfusion h)).1,
   (create_session_truthy_nonobject (.num 5) env0 [] (by decide)
      (fun _ h => Json.noConfusion h)).2.2.2⟩

/-- C3 counterexample: the inline 400 response of `crear_sesion` (body
`{}`) has neither a `message` nor a `timestamp` field, and its inline 500
has no `timestamp`, refuting "every error response carries all three". -/
theorem error_envelope_counterexample :
    (crear_sesion (.success (.obj [])) env0 []).1.code = 400 ∧
    respField (crear_sesion (.success (.obj [])) env0 []).1 "message" = none ∧
    respField (crear_sesion (.success (.obj [])) env0 []).1 "timestamp" = none ∧
    (crear_sesion (.failure "boom") env0 []).1.code = 500 ∧
    respField (crear_sesion (.failure "boom") env0 []).1 "timestamp" = none :=
  ⟨rfl, rfl, rfl, rfl, rfl⟩

/-- C3 amended: the registered 400/404/500 handlers all answer with the
`error`, `message`, `timestamp` envelope, but the inline error responses
of `crear_sesion` do not: its 400 carries only `error`, its 500 only
`error` and `message`. -/
theorem error_envelope_amended (clock : Nat → String) (m : String) (v : Json)
    (env : RequestEnv) (st : Registry) (hfalsy : v.truthy = false) :
    (respField (bad_request clock) "error" = some (.str "Bad Request") ∧
     respField (bad_request clock) "message"
       = some (.str "The request data is malformed or invalid") ∧
     respField (bad_request clock) "timestamp" = some (.str (clock 0))) ∧
    (respField (not_found clock) "error" = some (.str "Not Found") ∧
     respField (not_found clock) "message"
       = some (.str "The requested endpoint does not exist") ∧
     respField (not_found clock) "timestamp" = some (.str (clock 0))) ∧
    (respField (internal_error clock) "error" = some (.str "Internal Server Error") ∧
     respField (internal_error clock) "message"
       = some (.str "An unexpected error occurred. Please try again later.") ∧
     respField (internal_error clock) "timestamp" = some (.str (clock 0))) ∧
    (crear_sesion (.success v) env st).1.body = [("error", .str "Datos requeridos")] ∧
    (crear_sesion (.failure m) env st).1.body
      = [("error", .str "Error interno del servidor"), ("message", .str m)] := by
  rw [crear_sesion_falsy v env st hfalsy, crear_sesion_failure]
  exact ⟨⟨rfl, rfl, rfl⟩, ⟨rfl, rfl, rfl⟩, ⟨rfl, rfl, rfl⟩, rfl, rfl⟩

/-- C3 amended, witness: evaluated at the concrete clock of `env0` and
the empty payload. -/
theorem error_envelope_amended_witness :
    respField (bad_request env0.clock) "timestamp" = some (.str (env0.clock 0)) ∧
    (crear_sesion (.success (.obj [])) env0 []).1.body
      = [("error", Json.str "Datos requeridos")] :=
  ⟨(error_envelope_amended env0.clock "m" (.obj []) env0 [] rfl).1.2.2,
   (error_envelope_amended env0.clock "m" (.obj []) env0 [] rfl).2.2.2.1⟩

/-- C7 counterexample: `created_at` and `last_activity` come from two
separate `datetime.now()` reads (lines 174-175); with a clock that ticks
between them the stored record has `created_at` different from
`last_activity`, refuting the claimed equality. -/
theorem create_session_timestamps_counterexample :
    ∃ r, lookupKey env0.sessionUuid
        (crear_sesion (.success (.obj [("user_id", Json.str "u1")])) env0 []).2
        = some r ∧
      r.created_at = "t0" ∧ r.last_activity = "t1" ∧
      r.created_at ≠ r.last_activity :=
  ⟨_, lookupKey_insertKey_self _ _ _, rfl, rfl, by decide⟩

/-- C7 amended: the inserted record keeps the client-supplied values,
fills in the documented defaults (a `user_<8 hex chars>` placeholder,
"unknown", "1.0.0"), starts `interaction_count` at 0 and sets
`created_at` and `last_activity` to two immediately consecutive clock
reads, which coincide exactly when the clock did not tick between them
(the code does not reuse a single instant). -/
theorem create_session_record_fields (fields : List (String × Json))
    (env : RequestEnv) (st : Registry) (hne : fields ≠ [])
    (hlen : env.userUuidHex.length = 32)
    (hhex : ∀ c ∈ env.userUuidHex, isHexChar c = true) :
    ∃ r, lookupKey env.sessionUuid (crear_sesion (.success (.obj fields)) env st).2
        = some r ∧
      (∀ v, dictFind fields "user_id" = some v → r.user_id = v) ∧
      (dictFind fields "user_id" = none →
        ∃ h8 : List Char, r.user_id = .str ("user_" ++ String.mk h8) ∧
          h8.length = 8 ∧ ∀ c ∈ h8, isHexChar c = true) ∧
      (∀ v, dictFind fields "device_type" = some v → r.device_type = v) ∧
      (dictFind fields "device_type" = none → r.device_type = .str "unknown") ∧
      (∀ v, dictFind fields "app_version" = some v → r.app_version = v) ∧
      (dictFind fields "app_version" = none → r.app_version = .str "1.0.0") ∧
      r.interaction_count = 0 ∧
      r.created_at = env.clock 0 ∧
      r.last_activity = env.clock 1 ∧
      (env.clock 0 = env.clock 1 → r.created_at = r.last_activity) := by
  rw [crear_sesion_obj fields env st hne]
  refine ⟨_, lookupKey_insertKey_self _ _ _, ?_, ?_, ?_, ?_, ?_, ?_, rfl, rfl, rfl, ?_⟩
  · intro v hv
    simp [dictGet, hv]
  · intro hv
    refine ⟨env.userUuidHex.take 8, by simp [dictGet, hv], ?_, ?_⟩
    · simp [List.length_take, hlen]
    · intro c hc
      exact hhex c (List.take_subset 8 _ hc)
  · intro v hv
    simp [dictGet, hv]
  · intro hv
    simp [dictGet, hv]
  · intro v hv
    simp [dictGet, hv]
  · intro hv
    simp [dictGet, hv]
  · intro h
    exact h

/-- C7 amended, witness: a concrete request with only `user_id` given. -/
theorem create_session_record_fields_witness :
    ∃ r, lookupKey env0.sessionUuid
        (crear_sesion (.success (.obj [("user_id", Json.str "u1")])) env0 []).2
        = some r ∧ r.user_id = Json.str "u1" ∧ r.interaction_count = 0 := by
  obtain ⟨r, hr, hus, -, -, -, -, -, hint, -, -, -⟩ :=
    create_session_record_fields [("user_id", Json.str "u1")] env0 []
      (by simp) (by decide) (by decide)
  exact ⟨r, hr, hus (Json.str "u1") rfl, hint⟩

/-- C6: in every reachable application state, every stored record's `id`
equals the key it is stored under, the stored ids are pairwise distinct,
and no request (ping, status, create, unknown path) ever modifies or
removes the `id` of an existing record. -/
theorem registry_id_invariant (st : AppState) (h : Reachable st) :
    (∀ p ∈ st.active_sessions, (Prod.snd p).id = p.1) ∧
    (st.active_sessions.map (fun p => (Prod.snd p).id)).Nodup ∧
    (∀ k r, lookupKey k st.active_sessions = some r → r.id = k) ∧
    (∀ req cfg envName env k r, lookupKey k st.active_sessions = some r →
      ∃ r2, lookupKey k (handle req cfg envName env st).2.active_sessions = some r2 ∧
        r2.id = r.id) := by
  obtain ⟨hnd, hids⟩ := registryInv_reachable st h
  have hlook : ∀ k r, lookupKey k st.active_sessions = some r → r.id = k := by
    intro k r hkr
    simpa using hids (k, r) (lookupKey_mem k r _ hkr)
  refine ⟨hids, ?_, hlook, ?_⟩
  · rw [map_id_eq_keys _ hids]
    exact hnd
  · intro req cfg envName env k r hkr
    cases req with
    | pingReq => exact ⟨r, hkr, rfl⟩
    | statusReq => exact ⟨r, hkr, rfl⟩
    | unknownPath => exact ⟨r, hkr, rfl⟩
    | createSession body =>
        exact crear_sesion_preserves_id body env st.active_sessions k r
          (hlook k r hkr) hkr

/-- The record `crear_sesion` builds for the request of
`create_session_success_witness`. -/
def record0 : SessionRecord :=
  { id := "11111111-2222-3333-4444-555555555555"
    user_id := Json.str "u1"
    device_type := Json.str "unknown"
    app_version := Json.str "1.0.0"
    created_at := "t0"
    last_activity := "t1"
    interaction_count := 0 }

/-- The reachable one-session state obtained by one successful create. -/
def st1 : AppState :=
  (handle (.createSession (.success (.obj [("user_id", Json.str "u1")])))
    cfg0 "development" env0
    { active_sessions := [], pending_validations := [] }).2

/-- A second request's effects, with a distinct session uuid. -/
def env1 : RequestEnv :=
  { sessionUuid := "sid-2", userUuidHex := env0.userUuidHex, clock := env0.clock }

/-- C6 witness: after one concrete create, a further concrete create
leaves the stored record's id in place. -/
theorem registry_id_invariant_witness :
    ∃ r2, lookupKey "11111111-2222-3333-4444-555555555555"
        (handle (.createSession (.success (.obj [("device_type", Json.str "android")])))
          cfg0 "development" env1 st1).2.active_sessions = some r2 ∧
      r2.id = record0.id := by
  obtain ⟨-, -, -, hpres⟩ := registry_id_invariant st1
    (Reachable.step (.createSession (.success (.obj [("user_id", Json.str "u1")])))
      cfg0 "development" env0 Reachable.init)
  exact hpres (.createSession (.success (.obj [("device_type", Json.str "android")])))
    cfg0 "development" env1 "11111111-2222-3333-4444-555555555555" record0 rfl

/-- C8: the status snapshot always labels itself "healthy";
`services.openai` is "configured" exactly when a credential is present
(Python-truthy) and "not_configured" otherwise; the snapshot depends on
the credential only through that boolean (never echoing its value); the
model name falls back to "not_set" and the rate limit to the numeric
default 10 when unconfigured. -/
theorem status_report_fields (cfg : AppConfig) (envName : String)
    (clock : Nat → String) (sessions : Registry) (validations : Validations) :
    respField (status cfg envName clock sessions validations) "status"
      = some (.str "healthy") ∧
    ((∃ s, cfg.OPENAI_API_KEY = some s ∧ s ≠ "") →
      serviceField (status cfg envName clock sessions validations) "openai"
        = some (.str "configured")) ∧
    ((∀ s, cfg.OPENAI_API_KEY = some s → s = "") →
      serviceField (status cfg envName clock sessions validations) "openai"
        = some (.str "not_configured")) ∧
    (∀ key2, openaiConfigured { cfg with OPENAI_API_KEY := key2 }
        = openaiConfigured cfg →
      status { cfg with OPENAI_API_KEY := key2 } envName clock sessions validations
        = status cfg envName clock sessions validations) ∧
    (cfg.OPENAI_MODEL = none →
      serviceField (status cfg envName clock sessions validations) "openai_model"
        = some (.str "not_set")) ∧
    (cfg.RATE_LIMIT_PER_MINUTE = none →
      configField (status cfg envName clock sessions validations)
        "rate_limit_per_minute" = some (.num 10)) := by
  have hser : serviceField (status cfg envName clock sessions validations) "openai"
      = some (.str (if openaiConfigured cfg then "configured" else "not_configured")) :=
    rfl
  refine ⟨rfl, ?_, ?_, ?_, ?_, ?_⟩
  · rintro ⟨s, hs, hne⟩
    have hc : openaiConfigured cfg = true := by
      simp [openaiConfigured, hs, hne]
    rw [hser, hc]
    simp
  · intro habs
    have hc : openaiConfigured cfg = false := by
      unfold openaiConfigured
      match hk : cfg.OPENAI_API_KEY with
      | none => rfl
      | some s => simp [habs s hk]
    rw [hser, hc]
    simp
  · intro key2 hkey
    unfold status
    rw [hkey]
  · intro hm
    have : serviceField (status cfg envName clock sessions validations) "openai_model"
        = some (.str (cfg.OPENAI_MODEL.getD "not_set")) := rfl
    rw [this, hm]
    rfl
  · intro hr
    have : configField (status cfg envName clock sessions validations)
        "rate_limit_per_minute" = some (.num (cfg.RATE_LIMIT_PER_MINUTE.getD 10)) := rfl
    rw [this, hr]
    rfl

/-- C9: the status endpoint is purely read-only and total: for every
configuration (including one with every key absent) and every state it
leaves the session registry and the pending-validation mapping unchanged
and answers 200, with defaults in place of absent configuration. -/
theorem status_read_only (cfg : AppConfig) (envName : String) (env : RequestEnv)
    (st : AppState) :
    (handle .statusReq cfg envName env st).2 = st ∧
    (handle .statusReq cfg envName env st).2.active_sessions = st.active_sessions ∧
    (handle .statusReq cfg envName env st).2.pending_validations
      = st.pending_validations ∧
    (handle .statusReq cfg envName env st).1.code = 200 ∧
    (configField (handle .statusReq cfg0 envName env st).1 "session_lifetime_hours"
      = some (.num 8) ∧
     configField (handle .statusReq cfg0 envName env st).1 "rate_limit_per_minute"
      = some (.num 10) ∧
     configField (handle .statusReq cfg0 envName env st).1 "max_content_length_mb"
      = some (.num 0) ∧
     serviceField (handle .statusReq cfg0 envName env st).1 "openai_model"
      = some (.str "not_set") ∧
     serviceField (handle .statusReq cfg0 envName env st).1 "openai"
      = some (.str "not_configured")) :=
  ⟨rfl, rfl, rfl, rfl, rfl, rfl, rfl, rfl, rfl⟩

end Backend
